import Mathlib

/-!
Verification of the asynchronous task-proxy service (`main.py`):
the task registry, the background agent-run executor, and the
submission/query handlers.  Python dicts that cross the HTTP boundary are
modelled as association lists of `JValue`s; the two outbound network calls
are modelled by oracle outcomes (`SessionOutcome`, `RunOutcome`) that say
what `requests.post` returned or raised.
-/

namespace DeployAgents

/-- A JSON value, as carried in request/response bodies. -/
inductive JValue where
  | null : JValue
  | bool (b : Bool) : JValue
  | num (n : Int) : JValue
  | str (s : String) : JValue
  | arr (xs : List JValue) : JValue
  | obj (fields : List (String × JValue)) : JValue
deriving Repr

/-- One element of `content.parts` in an ADK event: `part.get('text')`
is `none` when the key is absent. -/
structure Part where
  text : Option String
deriving DecidableEq, Repr

/-- The `content` object of an ADK event: `content.get('parts')` is `none`
when the key is absent. -/
structure Content where
  parts : Option (List Part)
deriving DecidableEq, Repr

/-- One event object from the `/run` response array. -/
structure Event where
  content : Option Content
deriving DecidableEq, Repr

/-- Task status values.  The docstring of `get_task_status` lists
PENDING/SUCCESS/FAILURE/TIMEOUT; NOT_FOUND is the synthesized default of
the lookup. -/
inductive TaskStatus where
  | PENDING | SUCCESS | FAILURE | TIMEOUT | NOT_FOUND
deriving DecidableEq, Repr

/-- The `result` field of a task record: `None` while pending, an error
string on FAILURE/TIMEOUT, and the structured dict on SUCCESS
(`message`, `response`, `all_events`, `session_id`, `user_id`). -/
inductive TaskResult where
  | null : TaskResult
  | errorString (s : String) : TaskResult
  | success (message : Option String) (response : Option Event)
      (all_events : List Event) (session_id user_id : Option String) : TaskResult
deriving DecidableEq, Repr

/-- One entry of the `task_results` dict. -/
structure TaskRecord where
  status : TaskStatus
  result : TaskResult
deriving DecidableEq, Repr

/-- The inbound request payload dict: the four keys the code reads via
`payload.get`.  `none` means the key is absent; `some ""` an empty string. -/
structure Payload where
  appName : Option String
  userId : Option String
  sessionId : Option String
  newMessage : Option JValue

/-- Python truthiness of an optional string (`not payload["userId"]`):
absent and empty are falsy. -/
def truthyStr : Option String → Bool
  | none => false
  | some s => s ≠ ""

/-- Outcome of the Phase 1 `requests.post` (session init): an HTTP
response, a `requests.exceptions.Timeout`, or any other request
exception (connection error etc., carrying `str(e)`). -/
inductive SessionOutcome where
  | response (status : Nat) (body : String)
  | timeout
  | connError (msg : String)

/-- Outcome of the Phase 2 `requests.post` (`/run`).  For a response,
`parsed` is the result of `run_response.json()`: `.ok events` when the
body parses as an event array, `.error msg` when `json()` raises (the
message is `str(e)` of that exception). -/
inductive RunOutcome where
  | response (status : Nat) (body : String) (parsed : Except String (List Event))
  | timeout
  | connError (msg : String)

/-- The inner `for part in content['parts']` loop: the first part whose
`part.get('text')` is truthy (present and non-empty) gives the message. -/
def find_text_in_parts : List Part → Option String
  | [] => none
  | p :: ps =>
    match p.text with
    | some t => if t = "" then find_text_in_parts ps else some t
    | none => find_text_in_parts ps

/-- One iteration of the outer event loop for a single event: the text the
loop body would assign to `agent_message`, if any.  (An event whose
`content` is absent/falsy or whose `parts` list is absent is skipped.) -/
def extract_from_event (e : Event) : Option String :=
  match e.content with
  | none => none
  | some c =>
    match c.parts with
    | none => none
    | some ps => find_text_in_parts ps

/-- The `for event in reversed(events)` loop over an already-reversed
list: returns `(agent_message, agent_response)` — the first event (in the
given order) that yields a truthy text breaks the loop, with both the text
and the whole event recorded. -/
def scan_events : List Event → Option String × Option Event
  | [] => (none, none)
  | e :: es =>
    match extract_from_event e with
    | some t => (some t, some e)
    | none => scan_events es

/-- The `run_payload` dict built for the `/run` call: snake_case keys,
`new_message` taken directly from `payload.get("newMessage")`. -/
def build_run_payload (payload : Payload) : List (String × JValue) :=
  [ ("app_name", JValue.str (payload.appName.getD "agent")),
    ("user_id", (payload.userId.map JValue.str).getD JValue.null),
    ("session_id", (payload.sessionId.map JValue.str).getD JValue.null),
    ("new_message", payload.newMessage.getD JValue.null) ]

/-- `requests.Response.raise_for_status` raises `HTTPError` exactly for
4xx client errors and 5xx server errors. -/
def raise_for_status_errors (status : Nat) : Bool :=
  decide (400 ≤ status) && decide (status < 600)

/-- The error string built in the `HTTPError` handler:
`f"HTTP {e.response.status_code}: {e.response.text[:500]}"`. -/
def http_error_msg (status : Nat) (body : String) : String :=
  "HTTP " ++ toString status ++ ": " ++ body.take 500

/-- The fixed result string of the `Timeout` handler. -/
def timeout_msg : String := "Agent run exceeded timeout"

/-- Observable behaviour of one executor run: the `/run` request body it
sent (if Phase 2 was reached at all) and the sequence of
`task_results[task_id] = ...` registry writes it performed, in order. -/
structure ExecTrace where
  runRequest : Option (List (String × JValue))
  writes : List (TaskStatus × TaskResult)

/-- The terminal write performed once Phase 2 produced an HTTP response:
`raise_for_status`, then `json()`, then the event scan and the SUCCESS
write; an `HTTPError` lands in its handler, a `json()` exception in the
generic `Exception` handler. -/
def run_response_write (payload : Payload) (status : Nat) (body : String)
    (parsed : Except String (List Event)) : TaskStatus × TaskResult :=
  if raise_for_status_errors status then
    (TaskStatus.FAILURE, TaskResult.errorString (http_error_msg status body))
  else
    match parsed with
    | Except.error msg => (TaskStatus.FAILURE, TaskResult.errorString msg)
    | Except.ok events =>
      let scanned := scan_events events.reverse
      (TaskStatus.SUCCESS,
        TaskResult.success scanned.1 scanned.2 events payload.sessionId payload.userId)

/-- `long_running_agent_task`: Phase 1 posts to the session endpoint — a
non-2xx response is only logged, but a raised exception skips Phase 2 and
lands in the shared handlers (`Timeout` → TIMEOUT, anything else →
FAILURE with `str(e)`).  Phase 2 posts `build_run_payload` to `/run` and
classifies the outcome via `run_response_write`. -/
def long_running_agent_task (payload : Payload)
    (sess : SessionOutcome) (run : RunOutcome) : ExecTrace :=
  match sess with
  | SessionOutcome.timeout =>
    { runRequest := none,
      writes := [(TaskStatus.TIMEOUT, TaskResult.errorString timeout_msg)] }
  | SessionOutcome.connError msg =>
    { runRequest := none,
      writes := [(TaskStatus.FAILURE, TaskResult.errorString msg)] }
  | SessionOutcome.response _ _ =>
    match run with
    | RunOutcome.timeout =>
      { runRequest := some (build_run_payload payload),
        writes := [(TaskStatus.TIMEOUT, TaskResult.errorString timeout_msg)] }
    | RunOutcome.connError msg =>
      { runRequest := some (build_run_payload payload),
        writes := [(TaskStatus.FAILURE, TaskResult.errorString msg)] }
    | RunOutcome.response status body parsed =>
      { runRequest := some (build_run_payload payload),
        writes := [run_response_write payload status body parsed] }

/-- The `task_results` dict: an association list where an update shadows
older entries, so lookup sees the newest write. -/
def Registry : Type := List (String × TaskRecord)

/-- The empty registry (module start-up: `task_results = {}`). -/
def Registry.empty : Registry := ([] : List (String × TaskRecord))

/-- `task_results[task_id] = rec` under `task_lock`. -/
def Registry.set (reg : Registry) (task_id : String) (rec : TaskRecord) : Registry :=
  (task_id, rec) :: reg

/-- `task_results.get(task_id)` — `none` on a missing key. -/
def Registry.find? (reg : Registry) (task_id : String) : Option TaskRecord :=
  (List.find? (fun e => e.1 = task_id) reg).map (fun e => e.2)

/-- The `/task-status/{task_id}` handler body:
`task_results.get(task_id, {"status": "NOT_FOUND", "result": None})`.
It returns the record as a normal value; no exception or HTTP error
status is ever signalled. -/
def get_task_status (reg : Registry) (task_id : String) : TaskRecord :=
  (reg.find? task_id).getD (TaskRecord.mk TaskStatus.NOT_FOUND TaskResult.null)

/-- Rendering of a status to its wire string. -/
def statusToString : TaskStatus → String
  | TaskStatus.PENDING => "PENDING"
  | TaskStatus.SUCCESS => "SUCCESS"
  | TaskStatus.FAILURE => "FAILURE"
  | TaskStatus.TIMEOUT => "TIMEOUT"
  | TaskStatus.NOT_FOUND => "NOT_FOUND"

/-- Serialization of an event part back to JSON. -/
def partToJson (p : Part) : JValue :=
  JValue.obj (match p.text with
    | none => []
    | some t => [("text", JValue.str t)])

/-- Serialization of an event back to JSON. -/
def eventToJson (e : Event) : JValue :=
  JValue.obj (match e.content with
    | none => []
    | some c => [("content", JValue.obj (match c.parts with
        | none => []
        | some ps => [("parts", JValue.arr (ps.map partToJson))]))])

/-- Serialization of a stored result back to JSON. -/
def resultToJson : TaskResult → JValue
  | TaskResult.null => JValue.null
  | TaskResult.errorString s => JValue.str s
  | TaskResult.success message response all_events session_id user_id =>
    JValue.obj
      [ ("message", (message.map JValue.str).getD JValue.null),
        ("response", (response.map eventToJson).getD JValue.null),
        ("all_events", JValue.arr (all_events.map eventToJson)),
        ("session_id", (session_id.map JValue.str).getD JValue.null),
        ("user_id", (user_id.map JValue.str).getD JValue.null) ]

/-- The JSON body the query handler returns: the stored dict has exactly
the keys `status` and `result`. -/
def TaskRecord.toResponse (rec : TaskRecord) : List (String × JValue) :=
  [("status", JValue.str (statusToString rec.status)), ("result", resultToJson rec.result)]

/-- Lookup of a key in a JSON object rendered as an association list. -/
def lookupField (key : String) (fields : List (String × JValue)) : Option JValue :=
  (List.find? (fun e => e.1 = key) fields).map (fun e => e.2)

/-- Observable behaviour of one `/run-async` submission: the JSON body
returned to the caller, the (normalized) payload handed to the background
task, and the registry after the PENDING write. -/
structure SubmitTrace where
  response : List (String × JValue)
  scheduledPayload : Payload
  registry : Registry

/-- The `/run-async` handler `start_task`.  `task_id`, `genSession` and
`genUser` stand for the three `str(uuid.uuid4())` calls (the latter two
used only when the corresponding key is absent or falsy).  The payload is
mutated in place before `background_tasks.add_task`, so the scheduled
executor sees exactly the normalized values echoed to the caller. -/
def start_task (reg : Registry) (payload : Payload)
    (task_id genSession genUser : String) : SubmitTrace :=
  let p1 := if truthyStr payload.sessionId then payload
            else { payload with sessionId := some genSession }
  let p2 := if truthyStr p1.userId then p1
            else { p1 with userId := some genUser }
  { response :=
      [ ("task_id", JValue.str task_id),
        ("session_id", (p2.sessionId.map JValue.str).getD JValue.null),
        ("user_id", (p2.userId.map JValue.str).getD JValue.null) ],
    scheduledPayload := p2,
    registry := reg.set task_id (TaskRecord.mk TaskStatus.PENDING TaskResult.null) }

/-- The two kinds of registry mutation the service performs: the PENDING
insert of a submission, and the terminal write(s) of a finished executor
run.  The query handler never mutates. -/
inductive Op where
  | submit (task_id genSession genUser : String) (payload : Payload)
  | execute (task_id : String) (payload : Payload)
      (sess : SessionOutcome) (run : RunOutcome)

/-- Effect of one operation on the registry. -/
def stepOp (reg : Registry) : Op → Registry
  | Op.submit task_id genSession genUser payload =>
    (start_task reg payload task_id genSession genUser).registry
  | Op.execute task_id payload sess run =>
    (long_running_agent_task payload sess run).writes.foldl
      (fun r w => r.set task_id (TaskRecord.mk w.1 w.2)) reg

/-- Registry reached by a sequence of operations from process start. -/
def replay (ops : List Op) : Registry :=
  ops.foldl stepOp Registry.empty

/-- Modelled from the spec ("for each event, inspect its content's list
of parts in order; the first part bearing non-empty text is the extracted
message"): the text an event contributes, used to compare the code's scan
against the spec's description. -/
def spec_event_text (e : Event) : Option String :=
  (((e.content.bind Content.parts).getD []).find?
    (fun p => p.text.getD "" ≠ "")).bind Part.text

/-- Modelled from the spec ("scan events from most-recent to oldest ...
stop scanning once found"): the extracted message of an event list. -/
def spec_extract (events : List Event) : Option String :=
  (events.reverse.find? (fun e => (spec_event_text e).isSome)).bind spec_event_text

/-- Modelled from the spec: the event from which the message was taken —
the most recent event bearing non-empty text. -/
def spec_response_event (events : List Event) : Option Event :=
  events.reverse.find? (fun e => (spec_event_text e).isSome)

/-- A sample inbound payload used by concrete witnesses. -/
def samplePayload : Payload :=
  { appName := some "agent", userId := some "u1", sessionId := some "s1",
    newMessage := some (JValue.str "hi") }

section Lemmas

/-- The inner part loop agrees with the spec's "first part bearing
non-empty text". -/
lemma find_text_in_parts_eq_find? (ps : List Part) :
    find_text_in_parts ps =
      (ps.find? (fun p => p.text.getD "" ≠ "")).bind Part.text := by
  induction ps with
  | nil => rfl
  | cons p ps ih =>
    cases h : p.text with
    | none => simp [find_text_in_parts, List.find?, h, ih]
    | some t =>
      by_cases ht : t = ""
      · simp [find_text_in_parts, List.find?, h, ht, ih]
      · simp [find_text_in_parts, List.find?, h, ht]

/-- The per-event extraction agrees with the spec's description. -/
lemma extract_from_event_eq_spec (e : Event) :
    extract_from_event e = spec_event_text e := by
  cases hc : e.content with
  | none => simp [extract_from_event, spec_event_text, hc]
  | some c =>
    cases hp : c.parts with
    | none => simp [extract_from_event, spec_event_text, hc, hp]
    | some ps =>
      simp [extract_from_event, spec_event_text, hc, hp, find_text_in_parts_eq_find?]

/-- The event loop agrees with "take the first event yielding text, and
its text". -/
lemma scan_events_eq_find? (l : List Event) :
    scan_events l =
      ((l.find? (fun e => (spec_event_text e).isSome)).bind spec_event_text,
       l.find? (fun e => (spec_event_text e).isSome)) := by
  induction l with
  | nil => rfl
  | cons e es ih =>
    have he := extract_from_event_eq_spec e
    cases h : spec_event_text e with
    | none =>
      simp [scan_events, he, h, List.find?, ih]
    | some t =>
      simp [scan_events, he, h, List.find?]

/-- The code's reversed scan computes the spec's message and response
event. -/
lemma scan_events_reverse_eq (events : List Event) :
    scan_events events.reverse = (spec_extract events, spec_response_event events) := by
  rw [scan_events_eq_find?]
  rfl

/-- Every executor run performs exactly one registry write, always with a
terminal status. -/
lemma exec_writes_spec (payload : Payload) (sess : SessionOutcome) (run : RunOutcome) :
    ∃ st res, (long_running_agent_task payload sess run).writes = [(st, res)] ∧
      (st = TaskStatus.SUCCESS ∨ st = TaskStatus.FAILURE ∨ st = TaskStatus.TIMEOUT) := by
  cases sess with
  | timeout => exact ⟨_, _, rfl, Or.inr (Or.inr rfl)⟩
  | connError msg => exact ⟨_, _, rfl, Or.inr (Or.inl rfl)⟩
  | response st bd =>
    cases run with
    | timeout => exact ⟨_, _, rfl, Or.inr (Or.inr rfl)⟩
    | connError msg => exact ⟨_, _, rfl, Or.inr (Or.inl rfl)⟩
    | response status body parsed =>
      refine ⟨(run_response_write payload status body parsed).1,
              (run_response_write payload status body parsed).2, rfl, ?_⟩
      unfold run_response_write
      by_cases h : raise_for_status_errors status = true
      · simp [h]
      · cases parsed with
        | error msg => simp [h]
        | ok events => simp [h]

/-- A 2xx status is not in `raise_for_status`'s error range. -/
lemma raise_for_status_errors_of_2xx {status : Nat} (h : 200 ≤ status ∧ status < 300) :
    raise_for_status_errors status = false := by
  have : ¬ 400 ≤ status := by omega
  simp [raise_for_status_errors, this]

/-- The write of a 2xx run response with a parseable event array. -/
lemma exec_writes_2xx (payload : Payload) (sst : Nat) (ssb : String)
    (status : Nat) (body : String) (events : List Event)
    (h2xx : 200 ≤ status ∧ status < 300) :
    (long_running_agent_task payload (SessionOutcome.response sst ssb)
        (RunOutcome.response status body (Except.ok events))).writes =
      [(TaskStatus.SUCCESS,
        TaskResult.success (spec_extract events) (spec_response_event events)
          events payload.sessionId payload.userId)] := by
  have hr := raise_for_status_errors_of_2xx h2xx
  simp [long_running_agent_task, run_response_write, hr, scan_events_reverse_eq]

/-- Every stored status is one of the four the service writes. -/
def StoredOk (reg : Registry) : Prop :=
  ∀ task_id rec, reg.find? task_id = some rec →
    rec.status = TaskStatus.PENDING ∨ rec.status = TaskStatus.SUCCESS ∨
    rec.status = TaskStatus.FAILURE ∨ rec.status = TaskStatus.TIMEOUT

/-- Lookup after an update. -/
lemma Registry.find?_set (reg : Registry) (tid id : String) (rec : TaskRecord) :
    (reg.set tid rec).find? id = if tid = id then some rec else reg.find? id := by
  by_cases h : tid = id <;> simp [Registry.set, Registry.find?, List.find?, h]

/-- An update with an allowed status preserves the stored-status
invariant. -/
lemma StoredOk.set {reg : Registry} (h : StoredOk reg) (tid : String) (rec : TaskRecord)
    (hrec : rec.status = TaskStatus.PENDING ∨ rec.status = TaskStatus.SUCCESS ∨
      rec.status = TaskStatus.FAILURE ∨ rec.status = TaskStatus.TIMEOUT) :
    StoredOk (reg.set tid rec) := by
  intro id r hr
  rw [Registry.find?_set] at hr
  by_cases hid : tid = id
  · rw [if_pos hid] at hr
    cases hr
    exact hrec
  · rw [if_neg hid] at hr
    exact h id r hr

/-- Every single operation preserves the stored-status invariant. -/
lemma StoredOk.step {reg : Registry} (h : StoredOk reg) (op : Op) :
    StoredOk (stepOp reg op) := by
  cases op with
  | submit tid gS gU payload =>
    exact h.set tid _ (Or.inl rfl)
  | execute tid payload sess run =>
    obtain ⟨st, res, hw, hst⟩ := exec_writes_spec payload sess run
    show StoredOk ((long_running_agent_task payload sess run).writes.foldl
      (fun r w => r.set tid (TaskRecord.mk w.1 w.2)) reg)
    rw [hw]
    exact h.set tid _ (by rcases hst with h1 | h1 | h1 <;> simp [h1])

/-- The invariant holds at process start and is preserved by any run of
the service. -/
lemma StoredOk.replay (ops : List Op) : StoredOk (replay ops) := by
  have hgen : ∀ (l : List Op) (reg : Registry), StoredOk reg → StoredOk (l.foldl stepOp reg) := by
    intro l
    induction l with
    | nil => intro reg h; exact h
    | cons op l ih =>
      intro reg h
      exact ih _ (h.step op)
  refine hgen ops Registry.empty ?_
  intro id rec h
  simp [Registry.empty, Registry.find?] at h

end Lemmas

/-- An event whose content has a single part carrying text `t`. -/
def eventWithText (t : String) : Event :=
  Event.mk (some (Content.mk (some [Part.mk (some t)])))

/-- An event whose content has a single textless part. -/
def eventNoText : Event :=
  Event.mk (some (Content.mk (some [Part.mk none])))

/-- The spec's test vector: only the 3rd-from-last event carries the text
"hello"; an older event also carries text; the two newest carry none. -/
def c2Events : List Event :=
  [eventWithText "older", eventWithText "hello", eventNoText, Event.mk none]

/-- C1: every execution of the background executor performs exactly one
write to the task registry, on every code path — whatever the two remote
phases produced, the written status is terminal (SUCCESS, FAILURE or
TIMEOUT), so a completed execution never leaves the task PENDING. -/
theorem claim_C1 (payload : Payload) (sess : SessionOutcome) (run : RunOutcome) :
    ∃ st res, (long_running_agent_task payload sess run).writes = [(st, res)] ∧
      (st = TaskStatus.SUCCESS ∨ st = TaskStatus.FAILURE ∨ st = TaskStatus.TIMEOUT) :=
  exec_writes_spec payload sess run

/-- C1 witness: the theorem at a concrete input. -/
theorem claim_C1_witness :
    ∃ st res, (long_running_agent_task samplePayload SessionOutcome.timeout
        (RunOutcome.response 200 "[]" (Except.ok []))).writes = [(st, res)] ∧
      (st = TaskStatus.SUCCESS ∨ st = TaskStatus.FAILURE ∨ st = TaskStatus.TIMEOUT) :=
  claim_C1 samplePayload SessionOutcome.timeout (RunOutcome.response 200 "[]" (Except.ok []))

/-- C2: for every run response with a 2xx status and event list `events`,
the stored record is SUCCESS and its message equals the spec's scan
(newest-to-oldest, first event with a non-empty text part, first such
part in part order); when no event carries text the message is `none`
while the status is still SUCCESS. -/
theorem claim_C2 (payload : Payload) (sst : Nat) (ssb : String)
    (status : Nat) (body : String) (events : List Event)
    (h2xx : 200 ≤ status ∧ status < 300) :
    ∃ resp, (long_running_agent_task payload (SessionOutcome.response sst ssb)
        (RunOutcome.response status body (Except.ok events))).writes =
      [(TaskStatus.SUCCESS,
        TaskResult.success (spec_extract events) resp events
          payload.sessionId payload.userId)] :=
  ⟨spec_response_event events, exec_writes_2xx payload sst ssb status body events h2xx⟩

/-- C2 witness: on the spec's test vector the extracted message is
"hello", taken from the 3rd-from-last event even though an older event
also carries text. -/
theorem claim_C2_witness :
    spec_extract c2Events = some "hello" ∧
    ∃ resp, (long_running_agent_task samplePayload (SessionOutcome.response 200 "")
        (RunOutcome.response 200 "body" (Except.ok c2Events))).writes =
      [(TaskStatus.SUCCESS,
        TaskResult.success (spec_extract c2Events) resp c2Events
          samplePayload.sessionId samplePayload.userId)] :=
  ⟨by decide, claim_C2 samplePayload 200 "" 200 "body" c2Events (by decide)⟩

/-- C3 counterexample: a timeout of the session-init request does abort
the task — Phase 2 is never reached (no `/run` request is sent) and the
stored status is TIMEOUT, even though the run oracle would have returned
a 2xx event list.  This contradicts the claim that any Phase 1 failure is
non-fatal and the terminal status is determined only by Phase 2. -/
theorem claim_C3_cex :
    (long_running_agent_task samplePayload SessionOutcome.timeout
        (RunOutcome.response 200 "[]" (Except.ok [eventWithText "hello"]))).runRequest
      = none ∧
    (long_running_agent_task samplePayload SessionOutcome.timeout
        (RunOutcome.response 200 "[]" (Except.ok [eventWithText "hello"]))).writes =
      [(TaskStatus.TIMEOUT, TaskResult.errorString timeout_msg)] :=
  ⟨rfl, rfl⟩

/-- C3 amended: only a non-2xx session-init *response* is non-fatal — any
HTTP response in Phase 1, whatever its status, lets the executor proceed
to Phase 2 with the outcome depending only on the run call; but a raised
exception in Phase 1 (timeout or connection error) skips Phase 2 and
terminates the task (TIMEOUT, resp. FAILURE with the exception text). -/
theorem claim_C3_amended (payload : Payload) (st : Nat) (bd : String)
    (msg : String) (run : RunOutcome) :
    (long_running_agent_task payload (SessionOutcome.response st bd) run).runRequest =
      some (build_run_payload payload) ∧
    (long_running_agent_task payload (SessionOutcome.response st bd) run).writes =
      (long_running_agent_task payload (SessionOutcome.response 200 "") run).writes ∧
    (long_running_agent_task payload SessionOutcome.timeout run).runRequest = none ∧
    (long_running_agent_task payload SessionOutcome.timeout run).writes =
      [(TaskStatus.TIMEOUT, TaskResult.errorString timeout_msg)] ∧
    (long_running_agent_task payload (SessionOutcome.connError msg) run).runRequest = none ∧
    (long_running_agent_task payload (SessionOutcome.connError msg) run).writes =
      [(TaskStatus.FAILURE, TaskResult.errorString msg)] := by
  refine ⟨?_, ?_, rfl, rfl, rfl, rfl⟩ <;> cases run <;> rfl

/-- C4 counterexample: for a submission whose `newMessage` is the bare
string "hi", the outbound `/run` body carries `new_message: "hi"` as-is,
not the `{role: "user", parts: [{text: "hi"}]}` envelope the claim
describes. -/
theorem claim_C4_cex :
    lookupField "new_message" (build_run_payload samplePayload) = some (JValue.str "hi") ∧
    lookupField "new_message" (build_run_payload samplePayload) ≠
      some (JValue.obj [("role", JValue.str "user"),
        ("parts", JValue.arr [JValue.obj [("text", JValue.str "hi")]])]) := by
  refine ⟨rfl, ?_⟩
  intro h
  rw [show lookupField "new_message" (build_run_payload samplePayload) =
    some (JValue.str "hi") from rfl] at h
  exact JValue.noConfusion (Option.some.inj h)

/-- C4 amended: the run body forwards the caller-supplied `newMessage`
value under `new_message` unchanged — no envelope is added by this
service, so the caller must supply the structured shape itself. -/
theorem claim_C4_amended (payload : Payload) (m : JValue)
    (h : payload.newMessage = some m) :
    lookupField "new_message" (build_run_payload payload) = some m := by
  simp [build_run_payload, lookupField, List.find?, h]

/-- C4 witness: the amended theorem at a concrete input. -/
theorem claim_C4_witness :
    samplePayload.newMessage = some (JValue.str "hi") ∧
    lookupField "new_message" (build_run_payload samplePayload) = some (JValue.str "hi") :=
  ⟨rfl, claim_C4_amended samplePayload (JValue.str "hi") rfl⟩

/-- C5 counterexample: the submit handler's response body has no
`status` field at all (the code returns only `task_id`, `session_id` and
`user_id`), so it cannot contain `status: "PENDING"`. -/
theorem claim_C5_cex :
    lookupField "status" (start_task Registry.empty samplePayload "t1" "gs" "gu").response
      = none := by
  simp [start_task, lookupField, List.find?]

/-- C5 amended: the submit response contains `task_id`, `session_id` and
`user_id` (and the registry record is created as PENDING), but the body
itself carries no `status` field. -/
theorem claim_C5_amended (reg : Registry) (payload : Payload) (tid gS gU : String) :
    lookupField "task_id" (start_task reg payload tid gS gU).response =
      some (JValue.str tid) ∧
    (lookupField "session_id" (start_task reg payload tid gS gU).response).isSome = true ∧
    (lookupField "user_id" (start_task reg payload tid gS gU).response).isSome = true ∧
    lookupField "status" (start_task reg payload tid gS gU).response = none ∧
    (start_task reg payload tid gS gU).registry.find? tid =
      some (TaskRecord.mk TaskStatus.PENDING TaskResult.null) := by
  refine ⟨?_, ?_, ?_, ?_, ?_⟩ <;>
    simp [start_task, lookupField, List.find?, Registry.find?_set]

def c6Registry : Registry :=
  (start_task Registry.empty samplePayload "t1" "gs" "gu").registry

/-- C6 counterexample: querying the known identity "t1" returns a body
with no `task_id` field (only `status` and `result`), and querying an
unknown identity returns a normal record with status NOT_FOUND instead
of signalling an HTTP-404-equivalent condition. -/
theorem claim_C6_cex :
    (get_task_status c6Registry "t1").status = TaskStatus.PENDING ∧
    lookupField "task_id" (get_task_status c6Registry "t1").toResponse = none ∧
    get_task_status Registry.empty "missing" =
      TaskRecord.mk TaskStatus.NOT_FOUND TaskResult.null := by
  refine ⟨rfl, ?_, rfl⟩
  simp [TaskRecord.toResponse, lookupField, List.find?]

/-- C6 amended: the query returns `{status, result}` — without a
`task_id` field — and an unknown identity yields the normal synthesized
record `{status: NOT_FOUND, result: null}` rather than an HTTP 404. -/
theorem claim_C6_amended (reg : Registry) (task_id : String) :
    lookupField "status" (get_task_status reg task_id).toResponse =
      some (JValue.str (statusToString (get_task_status reg task_id).status)) ∧
    lookupField "result" (get_task_status reg task_id).toResponse =
      some (resultToJson (get_task_status reg task_id).result) ∧
    lookupField "task_id" (get_task_status reg task_id).toResponse = none ∧
    (reg.find? task_id = none →
      get_task_status reg task_id = TaskRecord.mk TaskStatus.NOT_FOUND TaskResult.null) := by
  refine ⟨?_, ?_, ?_, ?_⟩
  · simp [TaskRecord.toResponse, lookupField, List.find?]
  · simp [TaskRecord.toResponse, lookupField, List.find?]
  · simp [TaskRecord.toResponse, lookupField, List.find?]
  · intro h
    simp [get_task_status, h]

/-- C6 witness: the amended theorem at a concrete unknown identity. -/
theorem claim_C6_witness :
    lookupField "task_id" (get_task_status Registry.empty "zzz").toResponse = none ∧
    get_task_status Registry.empty "zzz" =
      TaskRecord.mk TaskStatus.NOT_FOUND TaskResult.null :=
  ⟨(claim_C6_amended Registry.empty "zzz").2.2.1,
   (claim_C6_amended Registry.empty "zzz").2.2.2 rfl⟩

/-- C7 counterexample: a run response with the non-2xx status 300 whose
body parses as an (empty) event array is stored as SUCCESS, not FAILURE —
`raise_for_status` only raises for 4xx/5xx. -/
theorem claim_C7_cex :
    (long_running_agent_task samplePayload (SessionOutcome.response 200 "")
        (RunOutcome.response 300 "[]" (Except.ok []))).writes =
      [(TaskStatus.SUCCESS,
        TaskResult.success none none [] (some "s1") (some "u1"))] := rfl

/-- C7 amended: for every run response with a 4xx or 5xx status, the
stored status is FAILURE and the result string is
`"HTTP <code>: "` followed by the first 500 characters of the body (so a
422 response yields a string containing "422"); 3xx statuses are not
treated as errors. -/
theorem claim_C7_amended (payload : Payload) (sst : Nat) (ssb : String)
    (status : Nat) (body : String) (parsed : Except String (List Event))
    (h4 : 400 ≤ status) (h6 : status < 600) :
    (long_running_agent_task payload (SessionOutcome.response sst ssb)
        (RunOutcome.response status body parsed)).writes =
      [(TaskStatus.FAILURE, TaskResult.errorString
          ("HTTP " ++ toString status ++ ": " ++ body.take 500))] := by
  have h : raise_for_status_errors status = true := by
    simp only [raise_for_status_errors, Bool.and_eq_true, decide_eq_true_eq]
    omega
  simp [long_running_agent_task, run_response_write, h, http_error_msg]

/-- C7 witness: the amended theorem at a concrete 422 response. -/
theorem claim_C7_witness :
    (400 ≤ 422 ∧ 422 < 600) ∧
    (long_running_agent_task samplePayload (SessionOutcome.response 200 "")
        (RunOutcome.response 422 "Unprocessable Entity" (Except.error "bad"))).writes =
      [(TaskStatus.FAILURE, TaskResult.errorString
          ("HTTP " ++ toString 422 ++ ": " ++ String.take "Unprocessable Entity" 500))] :=
  ⟨by decide, claim_C7_amended samplePayload 200 "" 422 "Unprocessable Entity"
      (Except.error "bad") (by decide) (by decide)⟩

/-- Truthiness of an optional string unpacked. -/
lemma truthyStr_eq_true_iff (o : Option String) :
    truthyStr o = true ↔ ∃ s, o = some s ∧ s ≠ "" := by
  cases o <;> simp [truthyStr]

/-- C8: whenever the generated identifiers are non-empty (a stringified
UUID4 always is), the scheduled payload carries non-empty `sessionId`
and `userId`, and the values echoed in the submit response equal the
ones the executor observes. -/
theorem claim_C8 (reg : Registry) (payload : Payload) (tid gS gU : String)
    (hgS : gS ≠ "") (hgU : gU ≠ "") :
    ∃ s u, s ≠ "" ∧ u ≠ "" ∧
      (start_task reg payload tid gS gU).scheduledPayload.sessionId = some s ∧
      (start_task reg payload tid gS gU).scheduledPayload.userId = some u ∧
      lookupField "session_id" (start_task reg payload tid gS gU).response =
        some (JValue.str s) ∧
      lookupField "user_id" (start_task reg payload tid gS gU).response =
        some (JValue.str u) := by
  obtain ⟨aN, uI, sI, nM⟩ := payload
  cases sI with
  | none =>
    cases uI with
    | none =>
      refine ⟨gS, gU, hgS, hgU, ?_⟩
      simp [start_task, truthyStr, lookupField, List.find?]
    | some u =>
      by_cases hu : u = ""
      · subst hu
        refine ⟨gS, gU, hgS, hgU, ?_⟩
        simp [start_task, truthyStr, lookupField, List.find?]
      · refine ⟨gS, u, hgS, hu, ?_⟩
        simp [start_task, truthyStr, lookupField, List.find?, hu]
  | some s =>
    by_cases hs : s = ""
    · subst hs
      cases uI with
      | none =>
        refine ⟨gS, gU, hgS, hgU, ?_⟩
        simp [start_task, truthyStr, lookupField, List.find?]
      | some u =>
        by_cases hu : u = ""
        · subst hu
          refine ⟨gS, gU, hgS, hgU, ?_⟩
          simp [start_task, truthyStr, lookupField, List.find?]
        · refine ⟨gS, u, hgS, hu, ?_⟩
          simp [start_task, truthyStr, lookupField, List.find?, hu]
    · cases uI with
      | none =>
        refine ⟨s, gU, hs, hgU, ?_⟩
        simp [start_task, truthyStr, lookupField, List.find?, hs]
      | some u =>
        by_cases hu : u = ""
        · subst hu
          refine ⟨s, gU, hs, hgU, ?_⟩
          simp [start_task, truthyStr, lookupField, List.find?, hs]
        · refine ⟨s, u, hs, hu, ?_⟩
          simp [start_task, truthyStr, lookupField, List.find?, hs, hu]

/-- C8 witness: a payload with empty/absent identifiers is normalized
with the generated values. -/
theorem claim_C8_witness :
    ("GS" : String) ≠ "" ∧ ("GU" : String) ≠ "" ∧
    (∃ s u, s ≠ "" ∧ u ≠ "" ∧
      (start_task Registry.empty
        (Payload.mk none none (some "") (some (JValue.str "go"))) "t" "GS" "GU").scheduledPayload.sessionId = some s ∧
      (start_task Registry.empty
        (Payload.mk none none (some "") (some (JValue.str "go"))) "t" "GS" "GU").scheduledPayload.userId = some u ∧
      lookupField "session_id" (start_task Registry.empty
        (Payload.mk none none (some "") (some (JValue.str "go"))) "t" "GS" "GU").response =
        some (JValue.str s) ∧
      lookupField "user_id" (start_task Registry.empty
        (Payload.mk none none (some "") (some (JValue.str "go"))) "t" "GS" "GU").response =
        some (JValue.str u)) :=
  ⟨by decide, by decide,
   claim_C8 Registry.empty (Payload.mk none none (some "") (some (JValue.str "go")))
     "t" "GS" "GU" (by decide) (by decide)⟩

/-- C9: in every registry state reachable by any sequence of submissions
and executor completions, every stored status is PENDING, SUCCESS,
FAILURE or TIMEOUT — NOT_FOUND is only the query's synthesized default on
a lookup miss and is never written. -/
theorem claim_C9 (ops : List Op) (task_id : String) (rec : TaskRecord)
    (h : (replay ops).find? task_id = some rec) :
    rec.status = TaskStatus.PENDING ∨ rec.status = TaskStatus.SUCCESS ∨
    rec.status = TaskStatus.FAILURE ∨ rec.status = TaskStatus.TIMEOUT :=
  StoredOk.replay ops task_id rec h

/-- C9 witness: the theorem at a concrete reachable state. -/
theorem claim_C9_witness :
    (replay [Op.submit "t" "gs" "gu" samplePayload]).find? "t" =
      some (TaskRecord.mk TaskStatus.PENDING TaskResult.null) ∧
    ((TaskRecord.mk TaskStatus.PENDING TaskResult.null).status = TaskStatus.PENDING ∨
     (TaskRecord.mk TaskStatus.PENDING TaskResult.null).status = TaskStatus.SUCCESS ∨
     (TaskRecord.mk TaskStatus.PENDING TaskResult.null).status = TaskStatus.FAILURE ∨
     (TaskRecord.mk TaskStatus.PENDING TaskResult.null).status = TaskStatus.TIMEOUT) :=
  ⟨rfl, claim_C9 [Op.submit "t" "gs" "gu" samplePayload] "t"
      (TaskRecord.mk TaskStatus.PENDING TaskResult.null) rfl⟩

/-- C10: on a 2xx run response the stored SUCCESS result carries, besides
`message`, `all_events`, `session_id` and `user_id`, a `response` field
equal to the most recent event bearing non-empty text — the event the
message was extracted from — and `null` exactly when no event carries
non-empty text. -/
theorem claim_C10 (payload : Payload) (sst : Nat) (ssb : String)
    (status : Nat) (body : String) (events : List Event)
    (h2xx : 200 ≤ status ∧ status < 300) :
    (long_running_agent_task payload (SessionOutcome.response sst ssb)
        (RunOutcome.response status body (Except.ok events))).writes =
      [(TaskStatus.SUCCESS,
        TaskResult.success (spec_extract events) (spec_response_event events)
          events payload.sessionId payload.userId)] ∧
    (spec_response_event events = none ↔ ∀ e ∈ events, spec_event_text e = none) ∧
    (∀ ev, spec_response_event events = some ev →
      spec_extract events = spec_event_text ev ∧ ev ∈ events) := by
  refine ⟨exec_writes_2xx payload sst ssb status body events h2xx, ?_, ?_⟩
  · rw [spec_response_event, List.find?_eq_none]
    constructor
    · intro h e he
      have h2 := h e (List.mem_reverse.mpr he)
      cases hval : spec_event_text e with
      | none => rfl
      | some t => exact absurd (by rw [hval]; rfl) h2
    · intro h e he
      simp [h e (List.mem_reverse.mp he)]
  · intro ev hev
    rw [spec_response_event] at hev
    refine ⟨?_, List.mem_reverse.mp (List.mem_of_find?_eq_some hev)⟩
    rw [spec_extract, hev]
    rfl

/-- C10 witness: the theorem at the concrete test vector. -/
theorem claim_C10_witness :
    (200 ≤ 200 ∧ 200 < 300) ∧
    (long_running_agent_task samplePayload (SessionOutcome.response 200 "")
        (RunOutcome.response 200 "body" (Except.ok c2Events))).writes =
      [(TaskStatus.SUCCESS,
        TaskResult.success (spec_extract c2Events) (spec_response_event c2Events)
          c2Events samplePayload.sessionId samplePayload.userId)] :=
  ⟨by decide, (claim_C10 samplePayload 200 "" 200 "body" c2Events (by decide)).1⟩

end DeployAgents
